import Mathlib

/-!
Verification of the piston-story-ai generation script (src/index.ts).

The script is a single linear `run` function: it reads a free-text prompt and a
start confirmation, then chains four structured model calls (prompt analysis,
story metadata, story segments, per-segment content), printing each result and
asking a continue confirmation between stages, and finally writes the generated
segments to an output file.

The shallow embedding below models:
  - the zod schemas of the four calls as decidable Bool validators over
    Lean structures mirroring the schema shapes;
  - the model SDK (generateObject) as an oracle mapping a prompt string to a
    response object, one oracle field per stage;
  - the observable behaviour of `run` as a trace of events (console logs,
    model calls with their maxRetries argument and prompt, file writes).
Library functions of the JS runtime that the script calls (String.trim,
Array.join, JSON.stringify) are modelled by structural Lean functions.
-/

namespace PistonStory

/-- Shape of the first call's result (analysis schema, index.ts lines 40-73). -/
structure AnalysisResult where
  type : String
  genres : List String
  themes : List String
  extraRequests : List String
  userInfo : List String
  topicInformation : List String
deriving DecidableEq, Repr

/-- Shape of one entity in the metadata schema (index.ts lines 103-134). -/
structure Entity where
  name : String
  description : String
  role : String
  traits : List String
  strengths : List String
  weaknesses : List String
  motivation : String
deriving DecidableEq, Repr

/-- Shape of the setting object in the metadata schema (index.ts lines 139-150). -/
structure StorySetting where
  location : String
  timePeriod : String
  atmosphere : String
deriving DecidableEq, Repr

/-- Shape of the second call's result (story metadata schema, index.ts lines 99-157). -/
structure StoryMetadata where
  title : String
  entities : List Entity
  setting : StorySetting
  plotPoints : List String
deriving DecidableEq, Repr

/-- Shape of an entity entry inside a segment (index.ts lines 190-196). -/
structure SegmentEntity where
  name : String
  mood : String
deriving DecidableEq, Repr

/-- Shape of the setting object of a segment (index.ts lines 201-206). -/
structure SegmentSetting where
  location : String
deriving DecidableEq, Repr

/-- Shape of one segment in the segments schema (index.ts lines 186-221). -/
structure Segment where
  title : String
  entities : List SegmentEntity
  setting : SegmentSetting
  memories : List String
  importance : Int
  ideas : List String
deriving DecidableEq, Repr

/-- Shape of the third call's result (segments schema, index.ts lines 185-226). -/
structure SegmentsResult where
  segments : List Segment
deriving DecidableEq, Repr

/-- Shape of the fourth call's result (content schema, index.ts lines 260-264). -/
structure ContentResult where
  content : List String
deriving DecidableEq, Repr

/-- An element of the generatedSegments accumulator (index.ts lines 251-254). -/
structure GeneratedSegment where
  title : String
  content : List String
deriving DecidableEq, Repr

/-- The values of the static TS enum `Type` (index.ts lines 8-10): its only
member is ShortStory with value "Short Story". `z.nativeEnum(Type)` accepts
exactly these values. -/
def typeValues : List String := ["Short Story"]

/-- Validator for the analysis schema (index.ts lines 40-73): type drawn from
the static enum; genres 1-10 strings of length at most 100; themes 1-5 of
length at most 100; extraRequests 0-5 of length at most 500; userInfo 0-3 of
length at most 200; topicInformation 0-5 of length at most 500. -/
def validAnalysis (r : AnalysisResult) : Bool :=
  typeValues.contains r.type &&
  r.genres.all (fun s => s.length ≤ 100) &&
  (1 ≤ r.genres.length && r.genres.length ≤ 10) &&
  r.themes.all (fun s => s.length ≤ 100) &&
  (1 ≤ r.themes.length && r.themes.length ≤ 5) &&
  r.extraRequests.all (fun s => s.length ≤ 500) &&
  r.extraRequests.length ≤ 5 &&
  r.userInfo.all (fun s => s.length ≤ 200) &&
  r.userInfo.length ≤ 3 &&
  r.topicInformation.all (fun s => s.length ≤ 500) &&
  r.topicInformation.length ≤ 5

/-- Validator for one entity of the metadata schema (index.ts lines 103-134). -/
def validEntity (e : Entity) : Bool :=
  e.name.length ≤ 50 &&
  e.description.length ≤ 500 &&
  e.role.length ≤ 100 &&
  e.traits.all (fun s => s.length ≤ 200) &&
  (1 ≤ e.traits.length && e.traits.length ≤ 5) &&
  e.strengths.all (fun s => s.length ≤ 200) &&
  (1 ≤ e.strengths.length && e.strengths.length ≤ 5) &&
  e.weaknesses.all (fun s => s.length ≤ 200) &&
  (1 ≤ e.weaknesses.length && e.weaknesses.length ≤ 5) &&
  e.motivation.length ≤ 200

/-- Validator for the metadata schema (index.ts lines 99-157): title at most
100 chars, 1-10 entities, a setting, 1-10 plot points of at most 500 chars. -/
def validStory (st : StoryMetadata) : Bool :=
  st.title.length ≤ 100 &&
  st.entities.all validEntity &&
  (1 ≤ st.entities.length && st.entities.length ≤ 10) &&
  st.setting.location.length ≤ 200 &&
  st.setting.timePeriod.length ≤ 100 &&
  st.setting.atmosphere.length ≤ 200 &&
  st.plotPoints.all (fun s => s.length ≤ 500) &&
  (1 ≤ st.plotPoints.length && st.plotPoints.length ≤ 10)

/-- Validator for an entity entry of a segment (index.ts lines 190-196): the
name must be one of the enum values `entityNames`, built at line 181 from the
metadata result; the mood is a string of at most 100 chars. -/
def validSegmentEntity (entityNames : List String) (e : SegmentEntity) : Bool :=
  entityNames.contains e.name && e.mood.length ≤ 100

/-- Validator for one segment (index.ts lines 186-221): title at most 100
chars; 1-5 entity entries; a setting location of at most 200 chars; 0-5
memories of at most 200 chars; integer importance between 1 and 10; ideas
strings of at most 200 chars. -/
def validSegment (entityNames : List String) (s : Segment) : Bool :=
  s.title.length ≤ 100 &&
  s.entities.all (validSegmentEntity entityNames) &&
  (1 ≤ s.entities.length && s.entities.length ≤ 5) &&
  s.setting.location.length ≤ 200 &&
  s.memories.all (fun m => m.length ≤ 200) &&
  s.memories.length ≤ 5 &&
  (1 ≤ s.importance && s.importance ≤ 10) &&
  s.ideas.all (fun i => i.length ≤ 200)

/-- Validator for the segments schema (index.ts lines 185-226): 1-10 valid
segments. -/
def validSegments (entityNames : List String) (r : SegmentsResult) : Bool :=
  r.segments.all (validSegment entityNames) &&
  (1 ≤ r.segments.length && r.segments.length ≤ 10)

/-- Validator for the content schema (index.ts lines 260-264): the schema is a
plain string array with no length bounds, so every string array conforms. -/
def validContent (_ : ContentResult) : Bool := true

/-- Whitespace recognizer used by the trim model. -/
def isWs (c : Char) : Bool := c = ' ' || c = '\t' || c = '\n' || c = '\r'

/-- Model of the JS library function String.prototype.trim used at
index.ts line 36: drops leading and trailing whitespace. Defined structurally
over the character list so it evaluates in the kernel. -/
def jsTrim (s : String) : String :=
  String.mk (((s.data.dropWhile isWs).reverse.dropWhile isWs).reverse)

/-- Model of the JS library function Array.prototype.join with a separator. -/
def jsJoin (sep : String) (xs : List String) : String :=
  String.intercalate sep xs

/-- JSON rendering of a string (model of the JSON.stringify library function;
escaping of special characters is not modelled). -/
def jsonStr (s : String) : String := "\"" ++ s ++ "\""

/-- JSON rendering of an array from already rendered element strings. -/
def jsonArr (xs : List String) : String :=
  "[" ++ String.intercalate ", " xs ++ "]"

/-- JSON rendering of an object from rendered key/value pairs. -/
def jsonObj (fields : List (String × String)) : String :=
  "\x7b" ++ String.intercalate ", " (fields.map (fun f => jsonStr f.1 ++ ": " ++ f.2)) ++ "\x7d"

/-- Model of JSON.stringify(result.object, null, 2) for the analysis result
(interpolated into the prompts at index.ts lines 164, 233 and 271);
indentation is not modelled. -/
def renderAnalysis (r : AnalysisResult) : String :=
  jsonObj [("type", jsonStr r.type),
    ("genres", jsonArr (r.genres.map jsonStr)),
    ("themes", jsonArr (r.themes.map jsonStr)),
    ("extraRequests", jsonArr (r.extraRequests.map jsonStr)),
    ("userInfo", jsonArr (r.userInfo.map jsonStr)),
    ("topicInformation", jsonArr (r.topicInformation.map jsonStr))]

/-- JSON rendering of one metadata entity. -/
def renderEntity (e : Entity) : String :=
  jsonObj [("name", jsonStr e.name),
    ("description", jsonStr e.description),
    ("role", jsonStr e.role),
    ("traits", jsonArr (e.traits.map jsonStr)),
    ("strengths", jsonArr (e.strengths.map jsonStr)),
    ("weaknesses", jsonArr (e.weaknesses.map jsonStr)),
    ("motivation", jsonStr e.motivation)]

/-- Model of JSON.stringify(story.object, null, 2) (index.ts lines 234, 272). -/
def renderStory (st : StoryMetadata) : String :=
  jsonObj [("title", jsonStr st.title),
    ("entities", jsonArr (st.entities.map renderEntity)),
    ("setting", jsonObj [("location", jsonStr st.setting.location),
      ("timePeriod", jsonStr st.setting.timePeriod),
      ("atmosphere", jsonStr st.setting.atmosphere)]),
    ("plotPoints", jsonArr (st.plotPoints.map jsonStr))]

/-- JSON rendering of one segment (JSON.stringify(segment, null, 2) at
index.ts line 273). -/
def renderSegment (s : Segment) : String :=
  jsonObj [("title", jsonStr s.title),
    ("entities", jsonArr (s.entities.map (fun e =>
      jsonObj [("name", jsonStr e.name), ("mood", jsonStr e.mood)]))),
    ("setting", jsonObj [("location", jsonStr s.setting.location)]),
    ("memories", jsonArr (s.memories.map jsonStr)),
    ("importance", toString s.importance),
    ("ideas", jsonArr (s.ideas.map jsonStr))]

/-- JSON rendering of the segments result, used when it is logged. -/
def renderSegments (r : SegmentsResult) : String :=
  jsonObj [("segments", jsonArr (r.segments.map renderSegment))]

/-- The prompt of the first model call (index.ts lines 76-80), interpolating
the trimmed user prompt. -/
def analysisPrompt (prompt : String) : String :=
  "\n    You are a helpful writing assistant for writing stories. Use the following prompt to analyze the request by the user on what story to write.\n    \n    Prompt: " ++
  prompt ++ "\n    "

/-- The prompt of the second model call (index.ts lines 160-165),
interpolating the trimmed user prompt and the analysis result JSON. -/
def metadataPrompt (prompt analysisJson : String) : String :=
  "\n        You are a helpful writing assistant for writing stories. Use the following prompt to generate the metadata for the story based on the analysis result.\n        \n        Prompt: " ++
  prompt ++ "\n        Prompt analysis result: " ++ analysisJson ++ "\n        "

/-- The prompt of the third model call (index.ts lines 229-235),
interpolating the trimmed user prompt, the analysis JSON and the metadata
JSON. -/
def segmentsPrompt (prompt analysisJson storyJson : String) : String :=
  "\n            You are a helpful writing assistant for writing stories. Use the following prompt to generate the segments for the story based on the metadata.\n            \n            Prompt: " ++
  prompt ++ "\n            Prompt analysis result: " ++ analysisJson ++
  "\n            Story metadata result: " ++ storyJson ++ "\n            "

/-- The conditional previous-segment text of the content prompt (index.ts
line 275): the previous generated segment's title followed by its content
joined by newlines, or the literal text when there is none. -/
def prevSegmentText : Option GeneratedSegment → String
  | none => "No previous segment."
  | some p => "Title: " ++ p.title ++ "\n" ++ "Content: " ++ jsJoin "\n" p.content

/-- The prompt of the per-segment content call (index.ts lines 267-283),
interpolating the trimmed user prompt, the analysis JSON, the metadata JSON,
the segment JSON and the previous-segment text. -/
def contentPrompt (prompt analysisJson storyJson : String) (segment : Segment)
    (previousSegment : Option GeneratedSegment) : String :=
  "\n            You are a helpful writing assistant for writing stories. Use the following prompt to generate the content for the segment.\n            \n            Prompt: " ++
  prompt ++ "\n            Prompt analysis result: " ++ analysisJson ++
  "\n            Story metadata result: " ++ storyJson ++
  "\n            Segment Details: " ++ renderSegment segment ++
  "\n            \n            The last segment this segment follows up on is: " ++
  prevSegmentText previousSegment ++
  "\n            \n            Write a detailed and engaging segment based on the above information.\n            Keep the content in plain text format, without any markdown or HTML tags.\n            Keep the content concise and focused on the segment\x27s key events and ideas.\n            Do not include any additional information or context.\n            The segment should be based on the metadata provided.\n            Make sure to stick to writing rules. For example do not use the same word more than 3 times in a row, do not use the same sentence structure more than 3 times in a row, etc.\n            "

/-- The model SDK (generateObject) as an oracle: each stage maps the prompt it
is given to a response object of that stage's schema shape. -/
structure Oracle where
  analyze : String → AnalysisResult
  metadata : String → StoryMetadata
  segments : String → SegmentsResult
  content : String → ContentResult

/-- An observable step of `run`: a console log, a model call (stage label,
maxRetries argument, prompt), or a file write (path, content). -/
inductive Event where
  | log (msg : String)
  | modelCall (stage : String) (maxRetries : Nat) (prompt : String)
  | writeFile (path : String) (content : String)
deriving DecidableEq, Repr

/-- The user-interaction inputs of one run: the free-text prompt, the start
confirmation and the three continue confirmations, and the Date.now() value
used to name the output file. -/
structure RunInputs where
  promptInput : String
  start : Bool
  continueMetadata : Bool
  continueSegments : Bool
  continueContent : Bool
  now : Nat
deriving DecidableEq, Repr

/-- The previousSegment expression of the loop body (index.ts line 256):
null when the generatedSegments accumulator is empty, otherwise its last
element. -/
def prevOf (acc : List GeneratedSegment) : Option GeneratedSegment :=
  if acc.length = 0 then none else acc[acc.length - 1]?

/-- The per-segment content-generation for-loop (index.ts lines 255-290):
walks the planned segments keeping the generatedSegments accumulator `acc`;
each iteration reads the previous generated segment (`prevOf acc`), logs the
segment title, calls the model with the content prompt and maxRetries 5, and
appends the generated segment (planned title, generated content lines).
Returns the final accumulator and the events of the loop. -/
def contentLoop (o : Oracle) (prompt analysisJson storyJson : String) :
    List Segment → List GeneratedSegment → List GeneratedSegment × List Event
  | [], acc => (acc, [])
  | segment :: rest, acc =>
    let pr := contentPrompt prompt analysisJson storyJson segment (prevOf acc)
    let r := contentLoop o prompt analysisJson storyJson rest
      (acc ++ [{ title := segment.title, content := (o.content pr).content }])
    (r.1, Event.log ("Segment Title: " ++ segment.title) ::
      Event.modelCall "content" 5 pr :: r.2)

/-- The output file content (index.ts line 292): a level-1 heading with the
story title, then for each generated segment a level-2 heading with its title
and its content lines joined by newlines. -/
def renderOutput (title : String) (gens : List GeneratedSegment) : String :=
  "# " ++ title ++ "\n\n" ++
  jsJoin "\n" (gens.map (fun segment =>
    "## " ++ segment.title ++ "\n\n" ++ jsJoin "\n" segment.content ++ "\n"))

/-- The observable behaviour of `run` (index.ts lines 17-294) as an event
trace: each confirmation declined prints the cancellation message and stops;
otherwise the four stages run in sequence, each stage logging, calling the
model with maxRetries 5 and the stage prompt, and logging its result; at the
end the concatenated output is written to data/(now)-output.txt. -/
def run (inp : RunInputs) (o : Oracle) : List Event :=
  if !inp.start then [Event.log "Text generation cancelled."] else
  let prompt := jsTrim inp.promptInput
  let result := o.analyze (analysisPrompt prompt)
  let evs1 : List Event :=
    [Event.log "Starting the AI text generation script...",
     Event.modelCall "analysis" 5 (analysisPrompt prompt),
     Event.log ("Prompt analysis result: " ++ renderAnalysis result)]
  if !inp.continueMetadata then evs1 ++ [Event.log "Text generation cancelled."] else
  let story := o.metadata (metadataPrompt prompt (renderAnalysis result))
  let evs2 : List Event := evs1 ++
    [Event.log "Continuing with story metadata...",
     Event.modelCall "metadata" 5 (metadataPrompt prompt (renderAnalysis result)),
     Event.log ("Story metadata result: " ++ renderStory story)]
  if !inp.continueSegments then evs2 ++ [Event.log "Text generation cancelled."] else
  let segments := o.segments
    (segmentsPrompt prompt (renderAnalysis result) (renderStory story))
  let evs3 : List Event := evs2 ++
    [Event.log "Continuing with story segments...",
     Event.modelCall "segments" 5
       (segmentsPrompt prompt (renderAnalysis result) (renderStory story)),
     Event.log ("Story segments result: " ++ renderSegments segments)]
  if !inp.continueContent then evs3 ++ [Event.log "Text generation cancelled."] else
  let r := contentLoop o prompt (renderAnalysis result)
    (renderStory story) segments.segments []
  evs3 ++ r.2 ++
    [Event.writeFile ("data/" ++ toString inp.now ++ "-output.txt")
       (renderOutput story.title r.1),
     Event.log "Text generation completed successfully."]

/-- The analysis result produced in a run that reaches the first call. -/
def analysisOf (inp : RunInputs) (o : Oracle) : AnalysisResult :=
  o.analyze (analysisPrompt (jsTrim inp.promptInput))

/-- The story metadata produced in a run that reaches the second call. -/
def storyOf (inp : RunInputs) (o : Oracle) : StoryMetadata :=
  o.metadata (metadataPrompt (jsTrim inp.promptInput) (renderAnalysis (analysisOf inp o)))

/-- The planned segments produced in a run that reaches the third call. -/
def plannedSegments (inp : RunInputs) (o : Oracle) : List Segment :=
  (o.segments (segmentsPrompt (jsTrim inp.promptInput)
    (renderAnalysis (analysisOf inp o)) (renderStory (storyOf inp o)))).segments

/-- The generated segments produced in a run that completes all stages. -/
def gensOf (inp : RunInputs) (o : Oracle) : List GeneratedSegment :=
  (contentLoop o (jsTrim inp.promptInput) (renderAnalysis (analysisOf inp o))
    (renderStory (storyOf inp o)) (plannedSegments inp o) []).1

/-- The prompts of the model calls of a trace, in order. -/
def callPrompts (evs : List Event) : List String :=
  evs.filterMap (fun e => match e with
    | Event.modelCall _ _ p => some p
    | _ => none)

/-- The number of model calls of a trace. -/
def numModelCalls (evs : List Event) : Nat := (callPrompts evs).length

/-- The number of file writes of a trace. -/
def numWrites (evs : List Event) : Nat :=
  (evs.filterMap (fun e => match e with
    | Event.writeFile p c => some (p, c)
    | _ => none)).length

/-- Holds when every model call of the trace passes maxRetries 5. -/
def checkRetries (evs : List Event) : Bool :=
  evs.all (fun e => match e with
    | Event.modelCall _ r _ => r == 5
    | _ => true)

/-- The titles of the loop's generated segments are the accumulator's titles
followed by the planned segments' titles, in order. -/
theorem contentLoop_map_title (o : Oracle) (p a s : String) :
    ∀ (segs : List Segment) (acc : List GeneratedSegment),
    ((contentLoop o p a s segs acc).1).map GeneratedSegment.title =
      acc.map GeneratedSegment.title ++ segs.map Segment.title
  | [], acc => by simp [contentLoop]
  | seg :: rest, acc => by
    have IH := contentLoop_map_title o p a s rest
    simp only [contentLoop]
    rw [IH]
    simp

/-- The loop only appends to the accumulator: entries below the accumulator's
length are unchanged in the result. -/
theorem contentLoop_preserves (o : Oracle) (p a s : String) :
    ∀ (segs : List Segment) (acc : List GeneratedSegment) (j : Nat),
    j < acc.length → (contentLoop o p a s segs acc).1[j]? = acc[j]?
  | [], _, _, _ => rfl
  | seg :: rest, acc, j, h => by
    have IH := contentLoop_preserves o p a s rest
      (acc ++ [{ title := seg.title,
                 content := (o.content (contentPrompt p a s seg (prevOf acc))).content }])
      j (by simp; omega)
    simp only [contentLoop]
    rw [IH, List.getElem?_append]
    simp [h]

/-- The loop produces one generated segment per planned segment. -/
theorem contentLoop_length (o : Oracle) (p a s : String)
    (segs : List Segment) (acc : List GeneratedSegment) :
    (contentLoop o p a s segs acc).1.length = acc.length + segs.length := by
  have h := congrArg List.length (contentLoop_map_title o p a s segs acc)
  simpa using h

/-- The loop issues one model call per planned segment. -/
theorem contentLoop_numCalls (o : Oracle) (p a s : String) :
    ∀ (segs : List Segment) (acc : List GeneratedSegment),
    (callPrompts (contentLoop o p a s segs acc).2).length = segs.length
  | [], _ => rfl
  | seg :: rest, acc => by
    have IH := contentLoop_numCalls o p a s rest
      (acc ++ [{ title := seg.title,
                 content := (o.content (contentPrompt p a s seg (prevOf acc))).content }])
    simp only [contentLoop, callPrompts, List.filterMap_cons] at IH ⊢
    simp [IH]

/-- Every model call of the loop passes maxRetries 5. -/
theorem contentLoop_retries (o : Oracle) (p a s : String) :
    ∀ (segs : List Segment) (acc : List GeneratedSegment),
    checkRetries (contentLoop o p a s segs acc).2 = true
  | [], _ => rfl
  | seg :: rest, acc => by
    have IH := contentLoop_retries o p a s rest
      (acc ++ [{ title := seg.title,
                 content := (o.content (contentPrompt p a s seg (prevOf acc))).content }])
    simp only [contentLoop, checkRetries, List.all_cons] at IH ⊢
    simp [IH]

/-- Characterisation of the loop's prompts: the i-th content prompt is built
from the i-th planned segment and the generated segment just before the
current position (none at the very first position). -/
theorem contentLoop_prompts (o : Oracle) (p a s : String) :
    ∀ (segs : List Segment) (acc : List GeneratedSegment) (i : Nat),
    (callPrompts (contentLoop o p a s segs acc).2)[i]? =
      (segs[i]?).map (fun sg => contentPrompt p a s sg
        (if acc.length + i = 0 then none
         else (contentLoop o p a s segs acc).1[acc.length + i - 1]?))
  | [], acc, i => by simp [contentLoop, callPrompts]
  | seg :: rest, acc, 0 => by
    have hpres := contentLoop_preserves o p a s rest
      (acc ++ [{ title := seg.title,
                 content := (o.content (contentPrompt p a s seg (prevOf acc))).content }])
    simp only [contentLoop, callPrompts, List.filterMap_cons, Nat.add_zero]
    by_cases hacc : acc.length = 0
    · simp [hacc, prevOf]
    · have hlen : acc.length - 1 <
          (acc ++ [(⟨seg.title,
            (o.content (contentPrompt p a s seg (prevOf acc))).content⟩ :
              GeneratedSegment)]).length := by
        simp; omega
      simp only [hacc, if_false, List.getElem?_cons_zero, Option.map_some]
      rw [hpres _ hlen, List.getElem?_append]
      simp [prevOf, hacc, Nat.sub_lt (Nat.pos_of_ne_zero hacc)]
  | seg :: rest, acc, Nat.succ k => by
    have IH := contentLoop_prompts o p a s rest
      (acc ++ [{ title := seg.title,
                 content := (o.content (contentPrompt p a s seg (prevOf acc))).content }]) k
    simp only [contentLoop, callPrompts, List.filterMap_cons] at IH ⊢
    simp only [List.getElem?_cons_succ]
    rw [IH]
    have harith : (acc ++ [(⟨seg.title,
        (o.content (contentPrompt p a s seg (prevOf acc))).content⟩ :
          GeneratedSegment)]).length + k = acc.length + (k + 1) := by
      simp; omega
    simp only [harith]

/-- A schema-conforming analysis result used as concrete test data. -/
def sampleAnalysis : AnalysisResult :=
  { type := "Short Story", genres := ["Fantasy"], themes := ["Courage"],
    extraRequests := [], userInfo := [], topicInformation := [] }

/-- A schema-conforming metadata entity used as concrete test data. -/
def sampleEntity : Entity :=
  { name := "Mira", description := "A young scout", role := "protagonist",
    traits := ["brave"], strengths := ["agile"], weaknesses := ["rash"],
    motivation := "find the relic" }

/-- A schema-conforming story metadata result used as concrete test data. -/
def sampleStory : StoryMetadata :=
  { title := "The Relic", entities := [sampleEntity],
    setting := { location := "Forest", timePeriod := "Medieval",
                 atmosphere := "misty" },
    plotPoints := ["The relic is found"] }

/-- A schema-conforming segment used as concrete test data. -/
def sampleSegment : Segment :=
  { title := "Opening", entities := [{ name := "Mira", mood := "curious" }],
    setting := { location := "Forest" }, memories := [], importance := 5,
    ideas := ["Mira sets out"] }

/-- A second schema-conforming segment used as concrete test data. -/
def sampleSegmentB : Segment :=
  { title := "Climax", entities := [{ name := "Mira", mood := "tense" }],
    setting := { location := "Cave" }, memories := [], importance := 9,
    ideas := ["Mira finds the relic"] }

/-- A schema-conforming segments result used as concrete test data. -/
def sampleSegments : SegmentsResult :=
  { segments := [sampleSegment, sampleSegmentB] }

/-- A concrete oracle returning the sample objects at every stage. -/
def sampleOracle : Oracle :=
  { analyze := fun _ => sampleAnalysis,
    metadata := fun _ => sampleStory,
    segments := fun _ => sampleSegments,
    content := fun _ => { content := ["line one", "line two"] } }

/-- Concrete run inputs with every confirmation answered yes. -/
def sampleInputs : RunInputs :=
  { promptInput := "  A story about a relic  ", start := true,
    continueMetadata := true, continueSegments := true,
    continueContent := true, now := 42 }

/-- Concrete run inputs declining the segments-stage confirmation. -/
def cancelInputs : RunInputs :=
  { promptInput := "A story", start := true, continueMetadata := true,
    continueSegments := false, continueContent := true, now := 7 }

/-- The field names of the first call's schema object (index.ts lines 40-73),
in declaration order. -/
def analysisSchemaFields : List String :=
  ["type", "genres", "themes", "extraRequests", "userInfo", "topicInformation"]

/-- The field names of the metadata schema object (index.ts lines 99-157),
in declaration order. -/
def metadataSchemaFields : List String :=
  ["title", "entities", "setting", "plotPoints"]

/-- C1: every entity entry of every segment accepted by the segments-stage
schema has a name drawn from the metadata stage's entity-name list, because
the schema's name field is the enum built from that list (index.ts lines
181 and 191). -/
theorem c1_segment_names_from_metadata (story : StoryMetadata)
    (r : SegmentsResult)
    (h : validSegments (story.entities.map Entity.name) r = true) :
    ∀ seg ∈ r.segments, ∀ e ∈ seg.entities,
      e.name ∈ story.entities.map Entity.name := by
  intro seg hseg e he
  simp only [validSegments, Bool.and_eq_true, List.all_eq_true,
    decide_eq_true_eq, and_assoc] at h
  have hval := h.1 seg hseg
  simp only [validSegment, Bool.and_eq_true, List.all_eq_true,
    decide_eq_true_eq, and_assoc] at hval
  have hent := hval.2.1 e he
  simp only [validSegmentEntity, Bool.and_eq_true] at hent
  simpa using hent.1

/-- Witness for C1 at the sample metadata and segments results. -/
theorem c1_witness : ("Mira" : String) ∈ sampleStory.entities.map Entity.name :=
  c1_segment_names_from_metadata sampleStory sampleSegments (by decide)
    sampleSegment (by decide) ⟨"Mira", "curious"⟩ (by decide)

/-- C9: the metadata schema admits only results with between 1 and 10
entities, so the entity-name list built at index.ts line 181 is never empty
and the cast to a non-empty enum tuple at line 191 is safe. -/
theorem c9_entity_names_nonempty (st : StoryMetadata)
    (h : validStory st = true) :
    1 ≤ (st.entities.map Entity.name).length ∧
    (st.entities.map Entity.name).length ≤ 10 := by
  simp only [validStory, Bool.and_eq_true, List.all_eq_true,
    decide_eq_true_eq, and_assoc] at h
  constructor
  · simpa using h.2.2.1
  · simpa using h.2.2.2.1

/-- Witness for C9 at the sample metadata result. -/
theorem c9_witness :
    1 ≤ (sampleStory.entities.map Entity.name).length ∧
    (sampleStory.entities.map Entity.name).length ≤ 10 :=
  c9_entity_names_nonempty sampleStory (by decide)

/-- C2: the content loop is sequential with rolling context over exactly the
preceding segment: it makes one call per planned segment; the prompt of call
i+1 is built from planned segment i+1 and the generated segment at position
i alone, the prompt of call 0 is built from planned segment 0 and no previous
segment, and the previous-segment text interpolates the preceding generated
segment's title and its content joined by newlines, or the literal
"No previous segment." when there is none. -/
theorem c2_rolling_context (o : Oracle) (p a s : String)
    (segs : List Segment) :
    (callPrompts (contentLoop o p a s segs []).2).length = segs.length ∧
    (contentLoop o p a s segs []).1.length = segs.length ∧
    (callPrompts (contentLoop o p a s segs []).2)[0]? =
      (segs[0]?).map (fun sg => contentPrompt p a s sg none) ∧
    (∀ i : Nat, (callPrompts (contentLoop o p a s segs []).2)[i + 1]? =
      (segs[i + 1]?).map (fun sg => contentPrompt p a s sg
        ((contentLoop o p a s segs []).1[i]?))) ∧
    prevSegmentText none = "No previous segment." ∧
    (∀ g : GeneratedSegment, prevSegmentText (some g) =
      "Title: " ++ g.title ++ "\n" ++ "Content: " ++ jsJoin "\n" g.content) := by
  refine ⟨contentLoop_numCalls o p a s segs [], ?_, ?_, ?_, rfl, fun g => rfl⟩
  · simpa using contentLoop_length o p a s segs []
  · simpa using contentLoop_prompts o p a s segs [] 0
  · intro i
    simpa using contentLoop_prompts o p a s segs [] (i + 1)

/-- C5 counterexample: the first call's schema has neither a character field
nor a setting field (its fields are type, genres, themes, extraRequests,
userInfo and topicInformation). -/
theorem c5_counterexample :
    analysisSchemaFields.contains "character" = false ∧
    analysisSchemaFields.contains "characters" = false ∧
    analysisSchemaFields.contains "setting" = false := by decide

/-- C5 amended: the first structured-extraction call requires type, genres,
themes, extraRequests, userInfo and topicInformation fields; character
(entities) and setting fields are required by the second stage's metadata
schema instead. -/
theorem c5_amended :
    analysisSchemaFields.contains "type" = true ∧
    analysisSchemaFields.contains "genres" = true ∧
    analysisSchemaFields.contains "themes" = true ∧
    analysisSchemaFields.contains "extraRequests" = true ∧
    analysisSchemaFields.contains "userInfo" = true ∧
    analysisSchemaFields.contains "topicInformation" = true ∧
    metadataSchemaFields.contains "entities" = true ∧
    metadataSchemaFields.contains "setting" = true := by decide

/-- C6 counterexample: the only static list in the program holds story types,
not genres, and the genres field of the first schema accepts a string that is
in no static list at all. -/
theorem c6_counterexample :
    validAnalysis { sampleAnalysis with
      genres := ["Zorblax Quantum Knitting"] } = true ∧
    typeValues.contains "Zorblax Quantum Knitting" = false := by decide

/-- C6 amended: the static list the program defines is the story-type enum
with sole member "Short Story", and it constrains the type field of the first
extraction stage; the genres field is a free-form string array (1 to 10
strings of at most 100 characters each), not drawn from any static list. -/
theorem c6_amended :
    typeValues = ["Short Story"] ∧
    validAnalysis { sampleAnalysis with type := "Novel" } = false ∧
    validAnalysis { sampleAnalysis with
      genres := ["Zorblax Quantum Knitting"] } = true ∧
    validAnalysis { sampleAnalysis with genres := [] } = false ∧
    validAnalysis { sampleAnalysis with
      genres := [String.mk (List.replicate 101 'a')] } = false := by decide

/-- C4: declining any confirmation cancels the run atomically: if the start
confirmation or any of the three continue confirmations is answered no, the
trace ends with the cancellation message, contains no file write, and
contains at most the model calls of the stages already completed. -/
theorem c4_cancel_atomic (inp : RunInputs) (o : Oracle)
    (h : inp.start = false ∨ inp.continueMetadata = false ∨
      inp.continueSegments = false ∨ inp.continueContent = false) :
    (run inp o).getLast? = some (Event.log "Text generation cancelled.") ∧
    numWrites (run inp o) = 0 ∧
    numModelCalls (run inp o) ≤ 3 := by
  cases hs : inp.start with
  | false =>
    refine ⟨?_, ?_, ?_⟩ <;>
      simp [run, hs, numWrites, numModelCalls, callPrompts,
        List.getLast?_cons_cons, List.getLast?_singleton]
  | true =>
    cases hm : inp.continueMetadata with
    | false =>
      refine ⟨?_, ?_, ?_⟩ <;>
        simp [run, hs, hm, numWrites, numModelCalls, callPrompts,
          List.getLast?_cons_cons, List.getLast?_singleton]
    | true =>
      cases hg : inp.continueSegments with
      | false =>
        refine ⟨?_, ?_, ?_⟩ <;>
          simp [run, hs, hm, hg, numWrites, numModelCalls, callPrompts,
            List.getLast?_cons_cons, List.getLast?_singleton]
      | true =>
        cases hc : inp.continueContent with
        | false =>
          refine ⟨?_, ?_, ?_⟩ <;>
            simp [run, hs, hm, hg, hc, numWrites, numModelCalls, callPrompts,
              List.getLast?_cons_cons, List.getLast?_singleton]
        | true => simp [hs, hm, hg, hc] at h

/-- Witness for C4 at concrete inputs declining the third confirmation. -/
theorem c4_witness :
    (run cancelInputs sampleOracle).getLast? =
      some (Event.log "Text generation cancelled.") ∧
    numWrites (run cancelInputs sampleOracle) = 0 ∧
    numModelCalls (run cancelInputs sampleOracle) ≤ 3 :=
  c4_cancel_atomic cancelInputs sampleOracle (Or.inr (Or.inr (Or.inl rfl)))

/-- callPrompts distributes over list append. -/
theorem callPrompts_append (l1 l2 : List Event) :
    callPrompts (l1 ++ l2) = callPrompts l1 ++ callPrompts l2 := by
  simp [callPrompts]

/-- A log event contributes no call prompt. -/
theorem callPrompts_log (m : String) (l : List Event) :
    callPrompts (Event.log m :: l) = callPrompts l := rfl

/-- A model-call event contributes its prompt. -/
theorem callPrompts_call (st : String) (r : Nat) (p : String) (l : List Event) :
    callPrompts (Event.modelCall st r p :: l) = p :: callPrompts l := rfl

/-- A file-write event contributes no call prompt. -/
theorem callPrompts_write (pa c : String) (l : List Event) :
    callPrompts (Event.writeFile pa c :: l) = callPrompts l := rfl

/-- callPrompts of the empty trace. -/
theorem callPrompts_nil : callPrompts [] = [] := rfl

/-- checkRetries distributes over list append. -/
theorem checkRetries_append (l1 l2 : List Event) :
    checkRetries (l1 ++ l2) = (checkRetries l1 && checkRetries l2) := by
  simp [checkRetries]

/-- A log event satisfies the retry check. -/
theorem checkRetries_log (m : String) (l : List Event) :
    checkRetries (Event.log m :: l) = checkRetries l := by
  simp [checkRetries]

/-- A model-call event satisfies the retry check iff its count is 5. -/
theorem checkRetries_call (st : String) (r : Nat) (p : String) (l : List Event) :
    checkRetries (Event.modelCall st r p :: l) = ((r == 5) && checkRetries l) := by
  simp [checkRetries]

/-- A file-write event satisfies the retry check. -/
theorem checkRetries_write (pa c : String) (l : List Event) :
    checkRetries (Event.writeFile pa c :: l) = checkRetries l := by
  simp [checkRetries]

/-- checkRetries of the empty trace. -/
theorem checkRetries_nil : checkRetries [] = true := rfl

/-- C7: retry handling is delegated to the SDK with one fixed count: every
model call of every run passes maxRetries 5, and the number of model calls is
exactly one per completed stage plus one per planned segment in the content
loop, so the program wraps no retry loop of its own around any call. -/
theorem c7_fixed_retry_count (inp : RunInputs) (o : Oracle) :
    checkRetries (run inp o) = true ∧
    numModelCalls (run inp o) =
      (if inp.start = false then 0
       else if inp.continueMetadata = false then 1
       else if inp.continueSegments = false then 2
       else if inp.continueContent = false then 3
       else 3 + (plannedSegments inp o).length) := by
  cases hs : inp.start with
  | false =>
    refine ⟨?_, ?_⟩ <;>
      simp [run, hs, checkRetries_log, checkRetries_nil, numModelCalls,
        callPrompts_log, callPrompts_nil]
  | true =>
    cases hm : inp.continueMetadata with
    | false =>
      refine ⟨?_, ?_⟩ <;>
        simp [run, hs, hm, checkRetries_log, checkRetries_call,
          checkRetries_nil, numModelCalls, callPrompts_log, callPrompts_call,
          callPrompts_nil]
    | true =>
      cases hg : inp.continueSegments with
      | false =>
        refine ⟨?_, ?_⟩ <;>
          simp [run, hs, hm, hg, checkRetries_log, checkRetries_call,
            checkRetries_nil, numModelCalls, callPrompts_log, callPrompts_call,
            callPrompts_nil]
      | true =>
        cases hc : inp.continueContent with
        | false =>
          refine ⟨?_, ?_⟩ <;>
            simp [run, hs, hm, hg, hc, checkRetries_log, checkRetries_call,
              checkRetries_nil, numModelCalls, callPrompts_log,
              callPrompts_call, callPrompts_nil]
        | true =>
          refine ⟨?_, ?_⟩
          · simp [run, hs, hm, hg, hc, checkRetries_append, checkRetries_log,
              checkRetries_call, checkRetries_write, checkRetries_nil,
              contentLoop_retries]
          · simp [run, hs, hm, hg, hc, numModelCalls, callPrompts_append,
              callPrompts_log, callPrompts_call, callPrompts_write,
              callPrompts_nil, contentLoop_numCalls, plannedSegments,
              analysisOf, storyOf, List.length_append]
            omega

/-- C3: a run whose confirmations are all answered yes writes one output file
whose content is the story title as a level-1 heading followed by, for each
generated segment in the order the segments stage returned them, its title as
a level-2 heading and its content lines joined by newlines; the generated
segments correspond one to one, in order and by title, to the planned
segments. -/
theorem c3_output_file (inp : RunInputs) (o : Oracle)
    (h1 : inp.start = true) (h2 : inp.continueMetadata = true)
    (h3 : inp.continueSegments = true) (h4 : inp.continueContent = true) :
    Event.writeFile ("data/" ++ toString inp.now ++ "-output.txt")
      (renderOutput (storyOf inp o).title (gensOf inp o)) ∈ run inp o ∧
    renderOutput (storyOf inp o).title (gensOf inp o) =
      "# " ++ (storyOf inp o).title ++ "\n\n" ++
      jsJoin "\n" ((gensOf inp o).map (fun g =>
        "## " ++ g.title ++ "\n\n" ++ jsJoin "\n" g.content ++ "\n")) ∧
    (gensOf inp o).map GeneratedSegment.title =
      (plannedSegments inp o).map Segment.title ∧
    (gensOf inp o).length = (plannedSegments inp o).length := by
  refine ⟨?_, rfl, ?_, ?_⟩
  · simp [run, h1, h2, h3, h4, storyOf, analysisOf, gensOf, plannedSegments,
      List.mem_append, List.mem_cons]
  · simpa [gensOf] using contentLoop_map_title o (jsTrim inp.promptInput)
      (renderAnalysis (analysisOf inp o)) (renderStory (storyOf inp o))
      (plannedSegments inp o) []
  · simpa [gensOf] using contentLoop_length o (jsTrim inp.promptInput)
      (renderAnalysis (analysisOf inp o)) (renderStory (storyOf inp o))
      (plannedSegments inp o) []

/-- Witness for C3 at the sample inputs and oracle. -/
theorem c3_witness :
    Event.writeFile ("data/" ++ toString sampleInputs.now ++ "-output.txt")
      (renderOutput (storyOf sampleInputs sampleOracle).title
        (gensOf sampleInputs sampleOracle)) ∈ run sampleInputs sampleOracle ∧
    renderOutput (storyOf sampleInputs sampleOracle).title
        (gensOf sampleInputs sampleOracle) =
      "# " ++ (storyOf sampleInputs sampleOracle).title ++ "\n\n" ++
      jsJoin "\n" ((gensOf sampleInputs sampleOracle).map (fun g =>
        "## " ++ g.title ++ "\n\n" ++ jsJoin "\n" g.content ++ "\n")) ∧
    (gensOf sampleInputs sampleOracle).map GeneratedSegment.title =
      (plannedSegments sampleInputs sampleOracle).map Segment.title ∧
    (gensOf sampleInputs sampleOracle).length =
      (plannedSegments sampleInputs sampleOracle).length :=
  c3_output_file sampleInputs sampleOracle rfl rfl rfl rfl

/-- C8: the program applies no check of its own to accepted responses: for
every oracle whatsoever (any content, any quality), a fully confirmed run
completes and writes its file; acceptance lives entirely in the stage schemas,
which constrain only shape: string length, array length and integer range
violations are rejected by the validators, and the content schema admits any
string array. -/
theorem c8_shape_validation_only (inp : RunInputs) (o : Oracle)
    (h1 : inp.start = true) (h2 : inp.continueMetadata = true)
    (h3 : inp.continueSegments = true) (h4 : inp.continueContent = true) :
    (run inp o).getLast? =
      some (Event.log "Text generation completed successfully.") ∧
    numWrites (run inp o) = 1 ∧
    validEntity { sampleEntity with
      name := String.mk (List.replicate 51 'b') } = false ∧
    validAnalysis { sampleAnalysis with themes := [] } = false ∧
    validSegments ["Mira"]
      { segments := [{ sampleSegment with importance := 11 }] } = false ∧
    validSegments ["Mira"] sampleSegments = true ∧
    validContent { content := [] } = true := by
  refine ⟨?_, ?_, by decide, by decide, by decide, by decide, rfl⟩
  · simp [run, h1, h2, h3, h4, List.getLast?_eq_head?_reverse]
  · have hw : ∀ (l1 l2 : List Event) (pa c : String) (m : String),
        numWrites (l1 ++ (l2 ++ [Event.writeFile pa c, Event.log m])) =
          numWrites l1 + numWrites l2 + 1 := by
      intro l1 l2 pa c m
      simp [numWrites, List.filterMap_append]
      omega
    have hloop : ∀ (p a s : String) (segs : List Segment)
        (acc : List GeneratedSegment),
        numWrites (contentLoop o p a s segs acc).2 = 0 := by
      intro p a s segs
      induction segs with
      | nil => intro acc; rfl
      | cons seg rest ih =>
        intro acc
        simp only [contentLoop, numWrites, List.filterMap_cons] at ih ⊢
        simpa using ih _
    simp [run, h1, h2, h3, h4, numWrites, List.filterMap_cons,
      List.filterMap_append]
    have := hloop (jsTrim inp.promptInput)
      (renderAnalysis (o.analyze (analysisPrompt (jsTrim inp.promptInput))))
      (renderStory (o.metadata (metadataPrompt (jsTrim inp.promptInput)
        (renderAnalysis (o.analyze (analysisPrompt (jsTrim inp.promptInput)))))))
      ((o.segments (segmentsPrompt (jsTrim inp.promptInput)
        (renderAnalysis (o.analyze (analysisPrompt (jsTrim inp.promptInput))))
        (renderStory (o.metadata (metadataPrompt (jsTrim inp.promptInput)
          (renderAnalysis (o.analyze
            (analysisPrompt (jsTrim inp.promptInput))))))))).segments) []
    simpa [numWrites] using this

/-- Witness for C8 at the sample inputs and oracle. -/
theorem c8_witness :
    (run sampleInputs sampleOracle).getLast? =
      some (Event.log "Text generation completed successfully.") ∧
    numWrites (run sampleInputs sampleOracle) = 1 ∧
    validEntity { sampleEntity with
      name := String.mk (List.replicate 51 'b') } = false ∧
    validAnalysis { sampleAnalysis with themes := [] } = false ∧
    validSegments ["Mira"]
      { segments := [{ sampleSegment with importance := 11 }] } = false ∧
    validSegments ["Mira"] sampleSegments = true ∧
    validContent { content := [] } = true :=
  c8_shape_validation_only sampleInputs sampleOracle rfl rfl rfl rfl

/-- C10: the user prompt is trimmed once and only its trimmed form reaches the
four stage prompts: two runs whose free-text inputs have the same trimmed form
produce identical event traces (in particular identical prompts at every
stage), all other inputs and oracle responses being equal. -/
theorem c10_trim_invariance (inp : RunInputs) (s2 : String) (o : Oracle)
    (h : jsTrim inp.promptInput = jsTrim s2) :
    run { inp with promptInput := s2 } o = run inp o := by
  simp only [run]
  rw [← h]

/-- Witness for C10: a run whose input carries extra surrounding whitespace
equals the run on the trimmed input. -/
theorem c10_witness :
    run { sampleInputs with promptInput := "A story about a relic" }
      sampleOracle = run sampleInputs sampleOracle :=
  c10_trim_invariance sampleInputs "A story about a relic" sampleOracle
    (by decide)

end PistonStory
